import Mathlib

/-!
Verification of the EmailListChecker Go SDK client (client.go, errors.go)
against its specification.

The embedding models the SDK shallowly:
* JSON values are an inductive type; JSON numbers are modelled as integers,
  since no verified property depends on fractional numeric values.
* An HTTP response body is either empty (zero bytes), raw non-JSON text, or
  a parsed JSON value.
* The remote server is an oracle `serve : Nat → Response` giving the response
  to the n-th HTTP request issued within one SDK call; every operation
  returns its outcome together with the list of requests it issued, so that
  round-trip counts are observable.
* Go's `json.Unmarshal` semantics for the struct shapes used by the SDK are
  modelled field by field: an absent or null field keeps the zero value, a
  present field of the wrong type is a decode error, unknown fields are
  ignored, and for a duplicated key the last occurrence wins.
* A failed Go type assertion (`v.(string)` on a non-string) is a runtime
  panic; fallible model functions return `Except Unit _` with `.error ()`
  standing for that panic.
-/

namespace EmailListChecker

/-- Model of a JSON value. Numbers are modelled as integers (see header). -/
inductive Json where
  | null
  | bool (b : Bool)
  | num (n : Int)
  | str (s : String)
  | arr (xs : List Json)
  | obj (fields : List (String × Json))

/-- An HTTP response body: zero bytes, bytes that are not valid JSON, or
bytes that parse as the given JSON value. `text` is reserved for non-empty
invalid-JSON bodies. -/
inductive Body where
  | empty
  | text (s : String)
  | json (j : Json)

/-- Go object-field lookup after `json.Unmarshal`: for a duplicated key the
last occurrence wins; absent key gives `none`. -/
def lookupLast (fs : List (String × Json)) (k : String) : Option Json :=
  fs.foldl (fun acc kv => if kv.1 = k then some kv.2 else acc) none

/-- `json.Unmarshal(body, &errData)` for `errData map[string]interface{}`:
on a JSON object it fills the map; on anything else (empty body, invalid
JSON, null, non-object JSON) the error is discarded with `_ =` and the map
stays nil. `none` models the nil map. -/
def errDataOf : Body → Option (List (String × Json))
  | .json (.obj fs) => some fs
  | _ => none

/-- The message-selection idiom of the Go error branches:
`if errData != nil && errData[key] != nil { msg = errData[key].(string) }`.
A present, non-null, non-string value makes the type assertion panic,
modelled by `.error ()`. -/
def msgFrom (payload : Option (List (String × Json))) (key fallback : String) :
    Except Unit String :=
  match payload with
  | none => .ok fallback
  | some fs =>
    match lookupLast fs key with
    | none => .ok fallback
    | some .null => .ok fallback
    | some (.str s) => .ok s
    | some _ => .error ()

/-- The five typed error variants of errors.go. `generic` is Go's `APIError`.
Each carries message, HTTP status code and the raw decoded payload
(`none` = nil map). -/
inductive ApiError where
  | authentication (message : String) (statusCode : Nat)
      (responseData : Option (List (String × Json)))
  | insufficientCredits (message : String) (statusCode : Nat)
      (responseData : Option (List (String × Json)))
  | validation (message : String) (statusCode : Nat)
      (responseData : Option (List (String × Json)))
  | rateLimit (message : String) (retryAfter : Int) (statusCode : Nat)
      (responseData : Option (List (String × Json)))
  | generic (message : String) (statusCode : Nat)
      (responseData : Option (List (String × Json)))

/-- `resp.Header.Get(k)`: first matching header value, `""` when absent. -/
def headerGet (hs : List (String × String)) (k : String) : String :=
  match hs with
  | [] => ""
  | kv :: rest => if kv.1 = k then kv.2 else headerGet rest k

/-- All-digit run to its numeric value; `none` on an empty or non-digit run. -/
def digitsToNat (cs : List Char) : Option Nat :=
  match cs with
  | [] => none
  | _ =>
    if cs.all Char.isDigit then
      some (cs.foldl (fun a c => a * 10 + (c.toNat - Char.toNat '0')) 0)
    else none

/-- Go's `strconv.Atoi`: optional sign followed by one or more digits and
nothing else. (Machine-integer range overflow is not modelled; no verified
property depends on it.) -/
def atoi (s : String) : Option Int :=
  match s.data with
  | '+' :: rest => (digitsToNat rest).map Int.ofNat
  | '-' :: rest => (digitsToNat rest).map (fun n => -(n : Int))
  | cs => (digitsToNat cs).map Int.ofNat

/-- The 429 branch of `Client.request`: default 60, overridden by the
`Retry-After` header when it is non-empty and `Atoi` succeeds. -/
def retryAfterOf (hdrs : List (String × String)) : Int :=
  let h := headerGet hdrs "Retry-After"
  if h = "" then 60
  else
    match atoi h with
    | some v => v
    | none => 60

/-- The `NewRateLimitError` message from errors.go. -/
def rateLimitMessage (retryAfter : Int) : String :=
  "Rate limit exceeded. Retry after " ++ toString retryAfter ++ " seconds"

/-- The status-code switch of `Client.request` (client.go lines 455-497):
the shared error classifier used by every JSON-dispatch operation.
`.error ()` models a Go panic from a failed string type assertion. -/
def classify (status : Nat) (hdrs : List (String × String)) (body : Body) :
    Except Unit ApiError :=
  let errData := errDataOf body
  if status = 401 then
    (msgFrom errData "error" "Invalid API key").map
      (fun m => ApiError.authentication m status errData)
  else if status = 402 then
    (msgFrom errData "error" "Insufficient credits").map
      (fun m => ApiError.insufficientCredits m status errData)
  else if status = 422 then
    (msgFrom errData "message" "Validation error").map
      (fun m => ApiError.validation m status errData)
  else if status = 429 then
    Except.ok (ApiError.rateLimit (rateLimitMessage (retryAfterOf hdrs))
      (retryAfterOf hdrs) status errData)
  else
    (msgFrom errData "error" ("API error: " ++ toString status)).map
      (fun m => ApiError.generic m status errData)

/-- The status-code switch of `Client.VerifyBatchFile` (client.go lines
221-253): like `classify` but with no 429 case, so a 429 falls into the
default branch. -/
def classifyUpload (status : Nat) (body : Body) : Except Unit ApiError :=
  let errData := errDataOf body
  if status = 401 then
    (msgFrom errData "error" "Invalid API key").map
      (fun m => ApiError.authentication m status errData)
  else if status = 402 then
    (msgFrom errData "error" "Insufficient credits").map
      (fun m => ApiError.insufficientCredits m status errData)
  else if status = 422 then
    (msgFrom errData "message" "Validation error").map
      (fun m => ApiError.validation m status errData)
  else
    (msgFrom errData "error" ("API error: " ++ toString status)).map
      (fun m => ApiError.generic m status errData)

/-- The five variant tags, for stating the classification table. -/
inductive Variant where
  | authentication
  | insufficientCredits
  | validation
  | rateLimit
  | generic
deriving DecidableEq

/-- The variant tag of a typed error. -/
def variantOf : ApiError → Variant
  | .authentication .. => .authentication
  | .insufficientCredits .. => .insufficientCredits
  | .validation .. => .validation
  | .rateLimit .. => .rateLimit
  | .generic .. => .generic

/-- The spec's classification table (section 4.2). -/
def specTable (status : Nat) : Variant :=
  if status = 401 then .authentication
  else if status = 402 then .insufficientCredits
  else if status = 422 then .validation
  else if status = 429 then .rateLimit
  else .generic

/-- The classification actually implemented by the upload path: the same
table except that 429 is classified as generic. -/
def uploadTable (status : Nat) : Variant :=
  if status = 401 then .authentication
  else if status = 402 then .insufficientCredits
  else if status = 422 then .validation
  else .generic

/-- A client instance. `timeoutSeconds` mirrors the held http.Client timeout;
it does not affect any modelled behaviour. -/
structure Client where
  apiKey : String
  baseURL : String
  timeoutSeconds : Int

/-- `strings.TrimRight(s, "/")`: remove every trailing slash. -/
def trimTrailingSlashes (s : String) : String :=
  ⟨List.reverse (List.dropWhile (fun c => c == '/') s.data.reverse)⟩

/-- The default API endpoint from client.go. -/
def DefaultBaseURL : String := "https://platform.emaillistchecker.io/api/v1"

/-- `NewClientWithConfig`: the stored base URL is the input with trailing
slashes stripped. -/
def NewClientWithConfig (apiKey baseURL : String) (timeoutSeconds : Int) : Client :=
  { apiKey := apiKey,
    baseURL := trimTrailingSlashes baseURL,
    timeoutSeconds := timeoutSeconds }

/-- `NewClient`: the default base URL (used verbatim) and a 30s timeout. -/
def NewClient (apiKey : String) : Client :=
  { apiKey := apiKey, baseURL := DefaultBaseURL, timeoutSeconds := 30 }

/-- A request body: marshaled JSON, or a multipart form holding the uploaded
file and the string form fields, in written order. -/
inductive ReqBody where
  | jsonBody (j : Json)
  | multipartBody (fileName : String) (fileContent : String)
      (fields : List (String × String))

/-- An outgoing HTTP request as the SDK builds it. -/
structure Request where
  method : String
  url : String
  headers : List (String × String)
  body : Option ReqBody

/-- An HTTP response delivered by the server oracle. -/
structure Response where
  status : Nat
  headers : List (String × String)
  body : Body

/-- Request construction inside `Client.request` (client.go lines 421-441):
URL is base ++ endpoint, and the four headers are set unconditionally, in
this order, for every method and also when there is no body. -/
def buildRequest (c : Client) (method endpoint : String) (body : Option Json) :
    Request :=
  { method := method,
    url := c.baseURL ++ endpoint,
    headers :=
      [("Authorization", "Bearer " ++ c.apiKey),
       ("Content-Type", "application/json"),
       ("Accept", "application/json"),
       ("User-Agent", "EmailListChecker-Go/1.0.0")],
    body := body.map ReqBody.jsonBody }

/-- The headers the upload path sets (client.go lines 205-207): bearer
authorization, the boundary-declared multipart content type, and the
User-Agent — and nothing else (in particular no Accept header). -/
def uploadHeaders (apiKey boundary : String) : List (String × String) :=
  [("Authorization", "Bearer " ++ apiKey),
   ("Content-Type", "multipart/form-data; boundary=" ++ boundary),
   ("User-Agent", "EmailListChecker-Go/1.0.0")]

/-- How one SDK call can fail. `crash` is a Go runtime panic (failed type
assertion in the classifier); `decodeFail` is a response-unmarshal error;
`ioErr` is a local file-open error. -/
inductive Failure where
  | api (e : ApiError)
  | crash
  | decodeFail
  | ioErr (msg : String)

/-- Response handling of `Client.request` (lines 449-507): on status >= 400
classify (a classifier panic crashes the call); otherwise unmarshal a
non-empty body into the caller's result, and an empty body is success with
the result left at its zero value. -/
def requestOutcome {α : Type} (resp : Response) (emptyDefault : α)
    (dec : Body → Except Unit α) : Except Failure α :=
  if 400 ≤ resp.status then
    match classify resp.status resp.headers resp.body with
    | .ok e => .error (.api e)
    | .error _ => .error .crash
  else
    match resp.body, dec resp.body with
    | .empty, _ => .ok emptyDefault
    | _, .ok v => .ok v
    | _, .error _ => .error .decodeFail

/-- String field of a Go struct: absent or null keeps `""`, a string is
taken, any other type is an unmarshal error. -/
def fieldStr (fs : List (String × Json)) (k : String) : Except Unit String :=
  match lookupLast fs k with
  | none => .ok ""
  | some .null => .ok ""
  | some (.str s) => .ok s
  | some _ => .error ()

/-- Bool field of a Go struct, zero value false. -/
def fieldBool (fs : List (String × Json)) (k : String) : Except Unit Bool :=
  match lookupLast fs k with
  | none => .ok false
  | some .null => .ok false
  | some (.bool b) => .ok b
  | some _ => .error ()

/-- Numeric field of a Go struct, zero value 0. -/
def fieldInt (fs : List (String × Json)) (k : String) : Except Unit Int :=
  match lookupLast fs k with
  | none => .ok 0
  | some .null => .ok 0
  | some (.num n) => .ok n
  | some _ => .error ()

/-- One element of a `[]string`: a string is taken, a null keeps the zero
value `""`, anything else is an unmarshal error. -/
def strElem : Json → Except Unit String
  | .str s => .ok s
  | .null => .ok ""
  | _ => .error ()

/-- `[]string` field of a Go struct, zero value the nil slice. -/
def fieldStrList (fs : List (String × Json)) (k : String) :
    Except Unit (List String) :=
  match lookupLast fs k with
  | none => .ok []
  | some .null => .ok []
  | some (.arr xs) => xs.mapM strElem
  | some _ => .error ()

/-- `VerifyResponse` of client.go (score modelled as an integer, see the
header note). -/
structure VerifyResponse where
  email : String
  result : String
  reason : String
  disposable : Bool
  role : Bool
  free : Bool
  score : Int
  smtpProvider : String
  mxRecords : List String
  domain : String
  spamTrap : Bool
  mxFound : Bool

/-- The zero value of `VerifyResponse`. -/
def zeroVerifyResponse : VerifyResponse :=
  { email := "", result := "", reason := "", disposable := false,
    role := false, free := false, score := 0, smtpProvider := "",
    mxRecords := [], domain := "", spamTrap := false, mxFound := false }

/-- Unmarshal a JSON value into a `VerifyResponse` (null leaves the zero
value; unknown object fields are ignored; a non-object non-null value is an
error). -/
def decodeVerifyResponseJson : Json → Except Unit VerifyResponse
  | .null => .ok zeroVerifyResponse
  | .obj fs => do
    let email ← fieldStr fs "email"
    let result ← fieldStr fs "result"
    let reason ← fieldStr fs "reason"
    let disposable ← fieldBool fs "disposable"
    let role ← fieldBool fs "role"
    let free ← fieldBool fs "free"
    let score ← fieldInt fs "score"
    let smtpProvider ← fieldStr fs "smtp_provider"
    let mxRecords ← fieldStrList fs "mx_records"
    let domain ← fieldStr fs "domain"
    let spamTrap ← fieldBool fs "spam_trap"
    let mxFound ← fieldBool fs "mx_found"
    .ok { email := email, result := result, reason := reason,
          disposable := disposable, role := role, free := free,
          score := score, smtpProvider := smtpProvider,
          mxRecords := mxRecords, domain := domain, spamTrap := spamTrap,
          mxFound := mxFound }
  | _ => .error ()

/-- `BatchResponse` of client.go. -/
structure BatchResponse where
  id : Int
  status : String
  totalEmails : Int
  createdAt : String

/-- The zero value of `BatchResponse`. -/
def zeroBatchResponse : BatchResponse :=
  { id := 0, status := "", totalEmails := 0, createdAt := "" }

/-- Unmarshal a JSON value into a `BatchResponse`. -/
def decodeBatchResponseJson : Json → Except Unit BatchResponse
  | .null => .ok zeroBatchResponse
  | .obj fs => do
    let id ← fieldInt fs "id"
    let status ← fieldStr fs "status"
    let totalEmails ← fieldInt fs "total_emails"
    let createdAt ← fieldStr fs "created_at"
    .ok { id := id, status := status, totalEmails := totalEmails,
          createdAt := createdAt }
  | _ => .error ()

/-- `BatchStatusResponse` of client.go. -/
structure BatchStatusResponse where
  id : Int
  status : String
  progress : Int
  totalEmails : Int
  processedEmails : Int
  validEmails : Int
  invalidEmails : Int
  unknownEmails : Int

/-- The zero value of `BatchStatusResponse`. -/
def zeroBatchStatusResponse : BatchStatusResponse :=
  { id := 0, status := "", progress := 0, totalEmails := 0,
    processedEmails := 0, validEmails := 0, invalidEmails := 0,
    unknownEmails := 0 }

/-- Unmarshal a JSON value into a `BatchStatusResponse`. -/
def decodeBatchStatusResponseJson : Json → Except Unit BatchStatusResponse
  | .null => .ok zeroBatchStatusResponse
  | .obj fs => do
    let id ← fieldInt fs "id"
    let status ← fieldStr fs "status"
    let progress ← fieldInt fs "progress"
    let totalEmails ← fieldInt fs "total_emails"
    let processedEmails ← fieldInt fs "processed_emails"
    let validEmails ← fieldInt fs "valid_emails"
    let invalidEmails ← fieldInt fs "invalid_emails"
    let unknownEmails ← fieldInt fs "unknown_emails"
    .ok { id := id, status := status, progress := progress,
          totalEmails := totalEmails, processedEmails := processedEmails,
          validEmails := validEmails, invalidEmails := invalidEmails,
          unknownEmails := unknownEmails }
  | _ => .error ()

/-- Unmarshal into a Go struct whose one field is `Data *T`: the body must
be a JSON object (or null); an absent or null data field leaves the nil
pointer. -/
def decodeEnvelope {α : Type} (decA : Json → Except Unit α) :
    Body → Except Unit (Option α)
  | .json .null => .ok none
  | .json (.obj fs) =>
    match lookupLast fs "data" with
    | none => .ok none
    | some .null => .ok none
    | some j => (decA j).map some
  | _ => .error ()

/-- Unmarshal a body directly into a bare struct value. -/
def decodeBare {α : Type} (decA : Json → Except Unit α) :
    Body → Except Unit α
  | .json j => decA j
  | _ => .error ()

/-- Unmarshal into a Go struct whose one field is `Data` of interface type:
any JSON value is accepted in the data field; null or absent leaves nil. -/
def decodeEnvelopeAny : Body → Except Unit (Option Json)
  | .json .null => .ok none
  | .json (.obj fs) =>
    match lookupLast fs "data" with
    | none => .ok none
    | some .null => .ok none
    | some j => .ok (some j)
  | _ => .error ()

/-- Unmarshal into a Go struct whose one field is `Data` of string-keyed map
type: the data field must be an object (or null/absent, leaving the nil
map). -/
def decodeEnvelopeMap : Body → Except Unit (Option (List (String × Json)))
  | .json .null => .ok none
  | .json (.obj fs) =>
    match lookupLast fs "data" with
    | none => .ok none
    | some .null => .ok none
    | some (.obj m) => .ok (some m)
    | some _ => .error ()
  | _ => .error ()

/-- Unmarshal into a Go struct whose one field is `Data` of slice type: the
data field must be an array (or null/absent, leaving the nil slice). -/
def decodeEnvelopeList : Body → Except Unit (Option (List Json))
  | .json .null => .ok none
  | .json (.obj fs) =>
    match lookupLast fs "data" with
    | none => .ok none
    | some .null => .ok none
    | some (.arr xs) => .ok (some xs)
    | some _ => .error ()
  | _ => .error ()

/-- Unmarshal into the upload result struct with fields `Success bool` and
`Data *BatchResponse` (client.go lines 256-263): unlike `requestOutcome`,
the upload path unmarshals unconditionally, so an empty body is a decode
error. -/
def decodeUploadEnvelope : Body → Except Unit (Option BatchResponse)
  | .json .null => .ok none
  | .json (.obj fs) =>
    match fieldBool fs "success" with
    | .error e => .error e
    | .ok _ =>
      match lookupLast fs "data" with
      | none => .ok none
      | some .null => .ok none
      | some j => (decodeBatchResponseJson j).map some
  | _ => .error ()

/-- Endpoint path of `Verify`. -/
def verifyPath : String := "/verify"

/-- Endpoint path of `VerifyBatch`. -/
def verifyBatchPath : String := "/verify/batch"

/-- Endpoint path of `VerifyBatchFile`. -/
def verifyBatchUploadPath : String := "/verify/batch/upload"

/-- Endpoint path of `GetBatchStatus` (Sprintf with the integer id). -/
def batchStatusPath (batchID : Int) : String :=
  "/verify/batch/" ++ toString batchID

/-- Endpoint path of `GetBatchResults`: format and filter pass through as
query parameters, uninterpreted. -/
def batchResultsPath (batchID : Int) (format filter : String) : String :=
  "/verify/batch/" ++ toString batchID ++ "/results?format=" ++ format ++
    "&filter=" ++ filter

/-- Endpoint path of `FindEmail`. -/
def finderEmailPath : String := "/finder/email"

/-- Endpoint path of `FindByDomain`. -/
def finderDomainPath : String := "/finder/domain"

/-- Endpoint path of `FindByCompany`. -/
def finderCompanyPath : String := "/finder/company"

/-- Endpoint path of `GetCredits`. -/
def creditsPath : String := "/credits"

/-- Endpoint path of `GetUsage`. -/
def usagePath : String := "/usage"

/-- Endpoint path of `GetLists`. -/
def listsPath : String := "/lists"

/-- Endpoint path of `DeleteList`. -/
def deleteListPath (listID : Int) : String := "/lists/" ++ toString listID

/-- Marshaled `VerifyRequest`: fields in struct order, `timeout` omitted
when nil (omitempty on a pointer). -/
def verifyRequestJson (email : String) (timeout : Option Int)
    (smtpCheck : Bool) : Json :=
  .obj ([("email", .str email)] ++
    (match timeout with
     | none => []
     | some t => [("timeout", Json.num t)]) ++
    [("smtp_check", .bool smtpCheck)])

/-- Marshaled `BatchRequest`: `name` and `callback_url` are omitempty
strings, dropped when empty. -/
def batchRequestJson (emails : List String) (name callbackURL : String)
    (autoStart : Bool) : Json :=
  .obj ([("emails", Json.arr (emails.map Json.str))] ++
    (if name = "" then [] else [("name", Json.str name)]) ++
    (if callbackURL = "" then [] else
      [("callback_url", Json.str callbackURL)]) ++
    [("auto_start", .bool autoStart)])

/-- `Client.Verify` (client.go lines 104-129): one envelope-decoded request;
when the envelope carries no data, the identical request is issued a second
time and its response is decoded bare. The second component lists the
requests issued. -/
def Verify (c : Client) (email : String) (timeout : Option Int)
    (smtpCheck : Bool) (serve : Nat → Response) :
    Except Failure VerifyResponse × List Request :=
  let body := verifyRequestJson email timeout smtpCheck
  let req := buildRequest c "POST" verifyPath (some body)
  match requestOutcome (serve 0) none
      (decodeEnvelope decodeVerifyResponseJson) with
  | .error f => (.error f, [req])
  | .ok (some d) => (.ok d, [req])
  | .ok none =>
    match requestOutcome (serve 1) zeroVerifyResponse
        (decodeBare decodeVerifyResponseJson) with
    | .error f => (.error f, [req, req])
    | .ok v => (.ok v, [req, req])

/-- `Client.VerifyBatch` (client.go lines 131-157): same double-request
fallback shape as `Verify`. -/
def VerifyBatch (c : Client) (emails : List String)
    (name callbackURL : String) (autoStart : Bool) (serve : Nat → Response) :
    Except Failure BatchResponse × List Request :=
  let body := batchRequestJson emails name callbackURL autoStart
  let req := buildRequest c "POST" verifyBatchPath (some body)
  match requestOutcome (serve 0) none
      (decodeEnvelope decodeBatchResponseJson) with
  | .error f => (.error f, [req])
  | .ok (some d) => (.ok d, [req])
  | .ok none =>
    match requestOutcome (serve 1) zeroBatchResponse
        (decodeBare decodeBatchResponseJson) with
    | .error f => (.error f, [req, req])
    | .ok v => (.ok v, [req, req])

/-- `Client.GetBatchStatus` (client.go lines 268-288): same double-request
fallback shape as `Verify`, with a GET and no body. -/
def GetBatchStatus (c : Client) (batchID : Int) (serve : Nat → Response) :
    Except Failure BatchStatusResponse × List Request :=
  let req := buildRequest c "GET" (batchStatusPath batchID) none
  match requestOutcome (serve 0) none
      (decodeEnvelope decodeBatchStatusResponseJson) with
  | .error f => (.error f, [req])
  | .ok (some d) => (.ok d, [req])
  | .ok none =>
    match requestOutcome (serve 1) zeroBatchStatusResponse
        (decodeBare decodeBatchStatusResponseJson) with
    | .error f => (.error f, [req, req])
    | .ok v => (.ok v, [req, req])

/-- `Client.GetBatchResults` (client.go lines 290-304): envelope-only decode
into an untyped value, no fallback; a response without a data field yields a
nil result and a nil error. -/
def GetBatchResults (c : Client) (batchID : Int) (format filter : String)
    (serve : Nat → Response) : Except Failure (Option Json) × List Request :=
  let req := buildRequest c "GET" (batchResultsPath batchID format filter) none
  match requestOutcome (serve 0) none decodeEnvelopeAny with
  | .error f => (.error f, [req])
  | .ok d => (.ok d, [req])

/-- Marshaled `FindEmailRequest`. -/
def findEmailRequestJson (firstName lastName domain : String) : Json :=
  .obj [("first_name", .str firstName), ("last_name", .str lastName),
        ("domain", .str domain)]

/-- `Client.FindEmail` (client.go lines 313-331): envelope-only decode into
an untyped map, no fallback. -/
def FindEmail (c : Client) (firstName lastName domain : String)
    (serve : Nat → Response) :
    Except Failure (Option (List (String × Json))) × List Request :=
  let body := findEmailRequestJson firstName lastName domain
  let req := buildRequest c "POST" finderEmailPath (some body)
  match requestOutcome (serve 0) none decodeEnvelopeMap with
  | .error f => (.error f, [req])
  | .ok d => (.ok d, [req])

/-- The request body of `FindByDomain` (a Go map marshals with its keys in
sorted order: domain, limit, offset). -/
def findByDomainRequestJson (domain : String) (limit offset : Int) : Json :=
  .obj [("domain", .str domain), ("limit", Json.num limit),
        ("offset", Json.num offset)]

/-- `Client.FindByDomain` (client.go lines 333-351). -/
def FindByDomain (c : Client) (domain : String) (limit offset : Int)
    (serve : Nat → Response) :
    Except Failure (Option (List (String × Json))) × List Request :=
  let body := findByDomainRequestJson domain limit offset
  let req := buildRequest c "POST" finderDomainPath (some body)
  match requestOutcome (serve 0) none decodeEnvelopeMap with
  | .error f => (.error f, [req])
  | .ok d => (.ok d, [req])

/-- The request body of `FindByCompany` (map keys in sorted order). -/
def findByCompanyRequestJson (company : String) (limit : Int) : Json :=
  .obj [("company", .str company), ("limit", Json.num limit)]

/-- `Client.FindByCompany` (client.go lines 353-370). -/
def FindByCompany (c : Client) (company : String) (limit : Int)
    (serve : Nat → Response) :
    Except Failure (Option (List (String × Json))) × List Request :=
  let body := findByCompanyRequestJson company limit
  let req := buildRequest c "POST" finderCompanyPath (some body)
  match requestOutcome (serve 0) none decodeEnvelopeMap with
  | .error f => (.error f, [req])
  | .ok d => (.ok d, [req])

/-- `Client.GetCredits` (client.go lines 372-384). -/
def GetCredits (c : Client) (serve : Nat → Response) :
    Except Failure (Option (List (String × Json))) × List Request :=
  let req := buildRequest c "GET" creditsPath none
  match requestOutcome (serve 0) none decodeEnvelopeMap with
  | .error f => (.error f, [req])
  | .ok d => (.ok d, [req])

/-- `Client.GetUsage` (client.go lines 386-398). -/
def GetUsage (c : Client) (serve : Nat → Response) :
    Except Failure (Option (List (String × Json))) × List Request :=
  let req := buildRequest c "GET" usagePath none
  match requestOutcome (serve 0) none decodeEnvelopeMap with
  | .error f => (.error f, [req])
  | .ok d => (.ok d, [req])

/-- `Client.GetLists` (client.go lines 400-412). -/
def GetLists (c : Client) (serve : Nat → Response) :
    Except Failure (Option (List Json)) × List Request :=
  let req := buildRequest c "GET" listsPath none
  match requestOutcome (serve 0) none decodeEnvelopeList with
  | .error f => (.error f, [req])
  | .ok d => (.ok d, [req])

/-- `Client.DeleteList` (client.go lines 414-418): `request` is called with
a nil result, so a success body is never decoded. -/
def DeleteList (c : Client) (listID : Int) (serve : Nat → Response) :
    Except Failure Unit × List Request :=
  let req := buildRequest c "DELETE" (deleteListPath listID) none
  match requestOutcome (serve 0) () (fun _ => .ok ()) with
  | .error f => (.error f, [req])
  | .ok d => (.ok d, [req])

/-- `filepath.Base` for the slash-separated paths the SDK passes through:
the last path component ("." for an empty path). Trailing-separator and
OS-specific corner cases are not exercised by any verified property. -/
def baseName (p : String) : String :=
  if p = "" then "."
  else ((p.splitOn "/").getLast?).getD p

/-- `strconv.FormatBool`. -/
def formatBool (b : Bool) : String := if b then "true" else "false"

/-- `Client.VerifyBatchFile` (client.go lines 159-266). The local file
system is the oracle `fileSystem` (`none` = open fails); `boundary` is the
multipart boundary chosen by the writer. The file is opened before any
request is built; on open failure the call returns a wrapped I/O error and
the request list is empty. On an error status the upload-specific
classifier (no 429 case) runs; on success the body is unmarshaled
unconditionally and the possibly-nil data pointer is returned with a nil
error. -/
def VerifyBatchFile (c : Client) (fileSystem : String → Option String)
    (filePath : String) (name callbackURL : Option String) (autoStart : Bool)
    (boundary : String) (serve : Nat → Response) :
    Except Failure (Option BatchResponse) × List Request :=
  match fileSystem filePath with
  | none => (.error (.ioErr "failed to open file"), [])
  | some content =>
    let fields :=
      [("auto_start", formatBool autoStart)] ++
      (match name with
       | some n => [("name", n)]
       | none => []) ++
      (match callbackURL with
       | some u => [("callback_url", u)]
       | none => [])
    let req : Request :=
      { method := "POST",
        url := c.baseURL ++ verifyBatchUploadPath,
        headers := uploadHeaders c.apiKey boundary,
        body := some (.multipartBody (baseName filePath) content fields) }
    let resp := serve 0
    if 400 ≤ resp.status then
      match classifyUpload resp.status resp.body with
      | .ok e => (.error (.api e), [req])
      | .error _ => (.error .crash, [req])
    else
      match decodeUploadEnvelope resp.body with
      | .ok d => (.ok d, [req])
      | .error _ => (.error .decodeFail, [req])

/-! ## Helper lemmas -/

/-- A mapped `Except` that is `.ok` comes from an `.ok` of the source. -/
lemma except_map_ok {α β : Type} (f : α → β) (x : Except Unit α) (b : β)
    (h : x.map f = .ok b) : ∃ a, x = .ok a ∧ b = f a := by
  cases x with
  | ok a =>
    refine ⟨a, rfl, ?_⟩
    simpa [Except.map] using h.symm
  | error e => simp [Except.map] at h

/-- `retryAfterOf` is the parsed header value with default 60; the guard for
an empty header is subsumed because `atoi` fails on the empty string. -/
lemma retryAfterOf_eq (hdrs : List (String × String)) :
    retryAfterOf hdrs = (atoi (headerGet hdrs "Retry-After")).getD 60 := by
  unfold retryAfterOf
  by_cases h : headerGet hdrs "Retry-After" = ""
  · rw [h]
    rfl
  · rw [if_neg h]
    cases ha : atoi (headerGet hdrs "Retry-After") <;> simp [ha]

/-- On a success status with a JSON-object body, `requestOutcome` reduces to
the caller's decoder applied to that body. -/
lemma requestOutcome_success_ok {α : Type} (resp : Response) (d : α)
    (dec : Body → Except Unit α) (l : List (String × Json)) (v : α)
    (hst : resp.status < 400) (hbody : resp.body = .json (.obj l))
    (hdec : dec (.json (.obj l)) = .ok v) :
    requestOutcome resp d dec = .ok v := by
  unfold requestOutcome
  rw [if_neg (by omega), hbody, hdec]

/-! ## Claim theorems -/

/-- Claim C2 (code bug): a single call is supposed to perform exactly one
HTTP round-trip, but `Verify` against a server that answers 200 with body
`(empty JSON object)` — a success response with no data field — issues the
identical request twice: the envelope decode finds no data and the code
re-fetches instead of re-decoding the buffered body. The first conjunct
shows the call still succeeds, the second counts the two issued requests. -/
theorem C2_code_bug_eval :
    (Verify (NewClient "k") "a@b.com" none false
      (fun _ => { status := 200, headers := [], body := .json (.obj []) })).1
      = .ok zeroVerifyResponse ∧
    (Verify (NewClient "k") "a@b.com" none false
      (fun _ => { status := 200, headers := [], body := .json (.obj []) })).2.length
      = 2 :=
  ⟨rfl, rfl⟩

/-- Claim C3 (code bug): on a success body that is the bare object (no data
field), the result is supposed to equal that same buffered object; instead
the code issues the request again and bare-decodes the second response.
With a first response whose email field is "a" and a second whose email
field is "b", the call returns "b", while re-decoding the buffered first
body (second conjunct) yields "a". -/
theorem C3_code_bug_eval :
    (Verify (NewClient "k") "x" none false
      (fun n =>
        if n = 0 then
          { status := 200, headers := [],
            body := .json (.obj [("email", Json.str "a")]) }
        else
          { status := 200, headers := [],
            body := .json (.obj [("email", Json.str "b")]) })).1
      = .ok { zeroVerifyResponse with email := "b" } ∧
    decodeBare decodeVerifyResponseJson
        (Body.json (Json.obj [("email", Json.str "a")]))
      = .ok { zeroVerifyResponse with email := "a" } :=
  ⟨rfl, rfl⟩

/-- Claim C5 (code bug): classification is supposed never to crash on any
error body, but a 401 body whose error field holds the number 42 makes the
unchecked string type assertion panic (modelled by `.error ()`); a non-JSON
body, by contrast, is handled as claimed: typed error, nil payload. -/
theorem C5_code_bug_eval :
    classify 401 [] (Body.json (Json.obj [("error", Json.num 42)]))
      = .error () ∧
    classify 401 [] (Body.text "this is not json")
      = .ok (.authentication "Invalid API key" 401 none) :=
  ⟨rfl, rfl⟩

/-- Claim C6 (confirmed): every 429 response classifies as a RateLimit error
whose retry-after is the integer value of the Retry-After header when it
parses as an integer and 60 otherwise (missing header included), and whose
message is synthesized from that value; concretely, "120" parses to 120 and
"soon" does not parse. -/
theorem C6_theorem (hdrs : List (String × String)) (b : Body) :
    classify 429 hdrs b =
      .ok (.rateLimit
        ("Rate limit exceeded. Retry after " ++
          toString ((atoi (headerGet hdrs "Retry-After")).getD 60) ++
          " seconds")
        ((atoi (headerGet hdrs "Retry-After")).getD 60) 429 (errDataOf b)) ∧
    atoi "120" = some 120 ∧ atoi "soon" = none ∧ atoi "" = none := by
  refine ⟨?_, rfl, rfl, rfl⟩
  unfold classify rateLimitMessage
  rw [retryAfterOf_eq]
  norm_num

/-- Claim C8 (confirmed): when opening the file fails, `VerifyBatchFile`
returns a local I/O error and the list of issued HTTP requests is empty —
no network activity happens at all. -/
theorem C8_theorem (c : Client) (fileSystem : String → Option String)
    (filePath : String) (name callbackURL : Option String) (autoStart : Bool)
    (boundary : String) (serve : Nat → Response)
    (h : fileSystem filePath = none) :
    VerifyBatchFile c fileSystem filePath name callbackURL autoStart boundary
        serve
      = (.error (.ioErr "failed to open file"), []) := by
  unfold VerifyBatchFile
  rw [h]

/-- Witness for C8 at a concrete nonexistent file. -/
theorem C8_witness :
    ((fun _ : String => (none : Option String)) "missing.csv"
      = (none : Option String)) ∧
    VerifyBatchFile (NewClient "k") (fun _ => none) "missing.csv" none none
        true "B" (fun _ => { status := 200, headers := [], body := .empty })
      = (.error (.ioErr "failed to open file"), []) :=
  ⟨rfl, C8_theorem _ _ _ _ _ _ _ _ rfl⟩

/-- Claim C9 (confirmed): when the upload endpoint answers with a success
status and a JSON object carrying no data field (here also no success
field), `VerifyBatchFile` returns a nil pointer with a nil error, and only
one request is ever issued — no bare-payload fallback. -/
theorem C9_theorem (c : Client) (fileSystem : String → Option String)
    (filePath content : String) (name callbackURL : Option String)
    (autoStart : Bool) (boundary : String) (serve : Nat → Response)
    (l : List (String × Json))
    (hopen : fileSystem filePath = some content)
    (hst : (serve 0).status < 400)
    (hbody : (serve 0).body = .json (.obj l))
    (hdata : lookupLast l "data" = none)
    (hsuccess : lookupLast l "success" = none) :
    (VerifyBatchFile c fileSystem filePath name callbackURL autoStart boundary
        serve).1 = .ok none ∧
    (VerifyBatchFile c fileSystem filePath name callbackURL autoStart boundary
        serve).2.length = 1 := by
  have hdec : decodeUploadEnvelope ((serve 0).body) = .ok none := by
    rw [hbody]
    simp only [decodeUploadEnvelope, fieldBool, hsuccess, hdata]
  unfold VerifyBatchFile
  rw [hopen]
  simp only [if_neg (by omega : ¬ 400 ≤ (serve 0).status), hdec]
  simp

/-- Witness for C9 at a concrete upload answered 200 with an empty JSON
object body. -/
theorem C9_witness :
    ((fun _ : String => some "x@y.z") "emails.csv" = some "x@y.z") ∧
    ((200 : Nat) < 400) ∧
    ((VerifyBatchFile (NewClient "k") (fun _ => some "x@y.z") "emails.csv"
        none none true "B"
        (fun _ => { status := 200, headers := [], body := .json (.obj []) })).1
      = .ok none ∧
     (VerifyBatchFile (NewClient "k") (fun _ => some "x@y.z") "emails.csv"
        none none true "B"
        (fun _ => { status := 200, headers := [], body := .json (.obj []) })).2.length
      = 1) :=
  ⟨rfl, by omega,
    C9_theorem _ _ _ _ _ _ _ _ _ _ rfl (by decide) rfl rfl rfl⟩

/-- Claim C10 (confirmed): every opaque-payload operation decodes only the
envelope; on a success response whose JSON-object body has no data field it
returns a nil result with a nil error, and it issues exactly one request —
the bare-payload fallback of Verify/VerifyBatch is never applied. -/
theorem C10_theorem (c : Client) (serve : Nat → Response)
    (l : List (String × Json)) (batchID : Int)
    (format filter firstName lastName domain company : String)
    (limit offset : Int)
    (hst : (serve 0).status < 400)
    (hbody : (serve 0).body = .json (.obj l))
    (hdata : lookupLast l "data" = none) :
    ((GetBatchResults c batchID format filter serve).1 = .ok none ∧
     (GetBatchResults c batchID format filter serve).2.length = 1) ∧
    ((FindEmail c firstName lastName domain serve).1 = .ok none ∧
     (FindEmail c firstName lastName domain serve).2.length = 1) ∧
    ((FindByDomain c domain limit offset serve).1 = .ok none ∧
     (FindByDomain c domain limit offset serve).2.length = 1) ∧
    ((FindByCompany c company limit serve).1 = .ok none ∧
     (FindByCompany c company limit serve).2.length = 1) ∧
    ((GetCredits c serve).1 = .ok none ∧
     (GetCredits c serve).2.length = 1) ∧
    ((GetUsage c serve).1 = .ok none ∧
     (GetUsage c serve).2.length = 1) ∧
    ((GetLists c serve).1 = .ok none ∧
     (GetLists c serve).2.length = 1) := by
  have hAny : requestOutcome (serve 0) none decodeEnvelopeAny
      = .ok (none : Option Json) :=
    requestOutcome_success_ok _ _ _ l _ hst hbody
      (by simp only [decodeEnvelopeAny, hdata])
  have hMap : requestOutcome (serve 0) none decodeEnvelopeMap
      = .ok (none : Option (List (String × Json))) :=
    requestOutcome_success_ok _ _ _ l _ hst hbody
      (by simp only [decodeEnvelopeMap, hdata])
  have hList : requestOutcome (serve 0) none decodeEnvelopeList
      = .ok (none : Option (List Json)) :=
    requestOutcome_success_ok _ _ _ l _ hst hbody
      (by simp only [decodeEnvelopeList, hdata])
  refine ⟨?_, ?_, ?_, ?_, ?_, ?_, ?_⟩
  · simp only [GetBatchResults, hAny]
    simp
  · simp only [FindEmail, hMap]
    simp
  · simp only [FindByDomain, hMap]
    simp
  · simp only [FindByCompany, hMap]
    simp
  · simp only [GetCredits, hMap]
    simp
  · simp only [GetUsage, hMap]
    simp
  · simp only [GetLists, hList]
    simp

/-- The server used by the C10 witness: 200 with a JSON object body that has
no data field. -/
def c10srv : Nat → Response :=
  fun _ =>
    { status := 200, headers := [],
      body := .json (.obj [("ok", Json.bool true)]) }

/-- Witness for C10 at concrete inputs. -/
theorem C10_witness :
    ((c10srv 0).status < 400) ∧
    ((c10srv 0).body = .json (.obj [("ok", Json.bool true)])) ∧
    (lookupLast [("ok", Json.bool true)] "data" = none) ∧
    (((GetBatchResults (NewClient "k") 5 "csv" "all" c10srv).1 = .ok none ∧
      (GetBatchResults (NewClient "k") 5 "csv" "all" c10srv).2.length = 1) ∧
     ((FindEmail (NewClient "k") "Ada" "L" "x.io" c10srv).1 = .ok none ∧
      (FindEmail (NewClient "k") "Ada" "L" "x.io" c10srv).2.length = 1) ∧
     ((FindByDomain (NewClient "k") "x.io" 10 0 c10srv).1 = .ok none ∧
      (FindByDomain (NewClient "k") "x.io" 10 0 c10srv).2.length = 1) ∧
     ((FindByCompany (NewClient "k") "Acme" 10 c10srv).1 = .ok none ∧
      (FindByCompany (NewClient "k") "Acme" 10 c10srv).2.length = 1) ∧
     ((GetCredits (NewClient "k") c10srv).1 = .ok none ∧
      (GetCredits (NewClient "k") c10srv).2.length = 1) ∧
     ((GetUsage (NewClient "k") c10srv).1 = .ok none ∧
      (GetUsage (NewClient "k") c10srv).2.length = 1) ∧
     ((GetLists (NewClient "k") c10srv).1 = .ok none ∧
      (GetLists (NewClient "k") c10srv).2.length = 1)) :=
  ⟨by decide, rfl, rfl,
    C10_theorem (NewClient "k") c10srv [("ok", Json.bool true)] 5 "csv"
      "all" "Ada" "L" "x.io" "Acme" 10 0 (by decide) rfl rfl⟩

/-- Claim C1 counterexample: the multipart upload path does not share the
429 row of the classification table — its switch has no 429 case, so a 429
upload response classifies as Generic while the shared dispatcher
classifies the same response as RateLimit. -/
theorem C1_counterexample :
    classifyUpload 429 (Body.json (Json.obj []))
      = .ok (.generic "API error: 429" 429 (some [])) ∧
    classify 429 [] (Body.json (Json.obj []))
      = .ok (.rateLimit "Rate limit exceeded. Retry after 60 seconds" 60 429
          (some [])) ∧
    variantOf (.generic "API error: 429" 429 (some [])) ≠ specTable 429 :=
  ⟨rfl, rfl, by decide⟩

/-- Claim C1 as amended: whenever classification returns a typed error for a
status >= 400, the shared dispatcher's variant follows the spec table
(401 Authentication, 402 InsufficientCredits, 422 Validation, 429 RateLimit,
otherwise Generic), while the multipart upload path follows the same table
except that 429 yields Generic. -/
theorem C1_theorem (status : Nat) (hdrs : List (String × String)) (b : Body)
    (e e2 : ApiError) (h4 : 400 ≤ status) :
    (classify status hdrs b = .ok e → variantOf e = specTable status) ∧
    (classifyUpload status b = .ok e2 → variantOf e2 = uploadTable status) := by
  constructor
  · intro hcl
    simp only [classify] at hcl
    unfold specTable
    split_ifs at hcl ⊢ with h1 h2 h3 h5
    all_goals
      first
      | (obtain ⟨m, _, rfl⟩ := except_map_ok _ _ _ hcl
         rfl)
      | (injection hcl with he
         subst he
         rfl)
  · intro hcl
    simp only [classifyUpload] at hcl
    unfold uploadTable
    split_ifs at hcl ⊢ with h1 h2 h3
    all_goals
      obtain ⟨m, _, rfl⟩ := except_map_ok _ _ _ hcl
      rfl

/-- Witness for C1 at status 500 with an empty body: both classifiers
produce a Generic error as both tables demand. -/
theorem C1_witness :
    (400 ≤ 500) ∧
    variantOf (ApiError.generic "API error: 500" 500 none) = specTable 500 ∧
    variantOf (ApiError.generic "API error: 500" 500 none) = uploadTable 500 :=
  ⟨by decide,
    (C1_theorem 500 [] Body.empty (ApiError.generic "API error: 500" 500 none)
      (ApiError.generic "API error: 500" 500 none) (by decide)).1 rfl,
    (C1_theorem 500 [] Body.empty (ApiError.generic "API error: 500" 500 none)
      (ApiError.generic "API error: 500" 500 none) (by decide)).2 rfl⟩

/-- Claim C4 counterexample: the one request issued by a concrete successful
`VerifyBatchFile` call carries no Accept header at all, refuting "every
request carries Accept: application/json". -/
theorem C4_counterexample :
    ((VerifyBatchFile (NewClient "k") (fun _ => some "x@y.z") "emails.csv"
        none none true "BND"
        (fun _ => { status := 200, headers := [],
                    body := .json (.obj [("success", Json.bool true)]) })).2.map
      (fun r => r.headers.any (fun kv => kv.1 = "Accept")))
      = [false] :=
  rfl

/-- Claim C4 as amended: every request built by the shared dispatcher
carries exactly the four headers Authorization (bearer), Content-Type
application/json (set even for bodyless requests), Accept application/json
and the client User-Agent; the multipart upload request instead carries
Authorization, the boundary-declared multipart content type and the
User-Agent, and no Accept header. -/
theorem C4_theorem (c : Client) (method endpoint : String) (b : Option Json)
    (boundary : String) :
    (buildRequest c method endpoint b).headers =
      [("Authorization", "Bearer " ++ c.apiKey),
       ("Content-Type", "application/json"),
       ("Accept", "application/json"),
       ("User-Agent", "EmailListChecker-Go/1.0.0")] ∧
    uploadHeaders c.apiKey boundary =
      [("Authorization", "Bearer " ++ c.apiKey),
       ("Content-Type", "multipart/form-data; boundary=" ++ boundary),
       ("User-Agent", "EmailListChecker-Go/1.0.0")] ∧
    headerGet (uploadHeaders c.apiKey boundary) "Accept" = "" :=
  ⟨rfl, rfl, rfl⟩

/-- Whether a string ends in a slash. -/
def endsWithSlash (s : String) : Bool := s.data.getLast? == some '/'

/-- Whether a string starts with exactly one slash (a slash not followed by
another slash). -/
def startsWithSingleSlash (s : String) : Bool :=
  match s.data with
  | [] => false
  | c :: rest =>
    c == '/' &&
      (match rest with
       | [] => true
       | c2 :: _ => !(c2 == '/'))

/-- No two consecutive slashes appear at the junction of a concatenation:
for every position spanning the boundary between `b` and `p` in `b ++ p`,
the characters there are not both slashes. -/
def junctionClean (b p : String) : Prop :=
  ∀ i : Nat, b.data.length ≤ i + 1 → i ≤ b.data.length →
    ¬ ((b ++ p).data[i]? = some '/' ∧
       (b ++ p).data[i + 1]? = some '/')

/-- An endpoint path is acceptable against an effective base: it starts
with exactly one slash, and appending it to the base creates no double
slash at the junction. -/
def pathOk (b p : String) : Prop :=
  startsWithSingleSlash p = true ∧ junctionClean b p

/-- After dropping a prefix of slashes, the head (if any) is not a slash. -/
lemma dropWhile_head_ne_slash (l : List Char) (c : Char)
    (h : (l.dropWhile (fun x => x == '/')).head? = some c) : ¬ c = '/' := by
  induction l with
  | nil => simp [List.dropWhile] at h
  | cons a t ih =>
    rw [List.dropWhile_cons] at h
    by_cases ha : (a == '/') = true
    · rw [if_pos ha] at h
      exact ih h
    · rw [if_neg ha] at h
      simp only [List.head?_cons, Option.some.injEq] at h
      subst h
      intro hc
      exact ha (by simp [hc])

/-- `strings.TrimRight(s, "/")` never leaves a trailing slash. -/
lemma trim_endsWithSlash_false (s : String) :
    endsWithSlash (trimTrailingSlashes s) = false := by
  unfold endsWithSlash trimTrailingSlashes
  rw [show (String.mk (List.reverse
      (List.dropWhile (fun c => c == '/') s.data.reverse))).data
    = List.reverse (List.dropWhile (fun c => c == '/') s.data.reverse)
    from rfl]
  rw [List.getLast?_reverse]
  cases h : (List.dropWhile (fun c => c == '/') s.data.reverse).head? with
  | none => rfl
  | some c =>
    have hc := dropWhile_head_ne_slash _ _ h
    simp only [beq_eq_false_iff_ne, ne_eq, Option.some.injEq]
    exact hc

/-- A base with no trailing slash and a path starting with exactly one
slash concatenate without a double slash at the junction. -/
lemma junctionClean_of (b p : String)
    (hb : endsWithSlash b = false) (hp : startsWithSingleSlash p = true) :
    junctionClean b p := by
  intro i h1 h2 hcontra
  obtain ⟨ha, hb2⟩ := hcontra
  have hdata : (b ++ p).data = b.data ++ p.data := rfl
  rw [hdata] at ha hb2
  rcases Nat.eq_or_lt_of_le h2 with he | hlt
  · rw [he] at ha hb2
    rw [List.getElem?_append_right (le_refl _), Nat.sub_self] at ha
    rw [List.getElem?_append_right (by omega),
      show b.data.length + 1 - b.data.length = 1 by omega] at hb2
    cases hpd : p.data with
    | nil =>
      rw [hpd] at ha
      simp at ha
    | cons c rest =>
      rw [hpd] at ha hb2
      cases rest with
      | nil => simp at hb2
      | cons c2 r2 =>
        simp only [List.getElem?_cons_succ, List.getElem?_cons_zero,
          Option.some.injEq] at ha hb2
        simp only [startsWithSingleSlash, hpd] at hp
        simp only [Bool.and_eq_true, beq_iff_eq, Bool.not_eq_true',
          beq_eq_false_iff_ne, ne_eq] at hp
        exact hp.2 hb2
  · rw [List.getElem?_append_left hlt] at ha
    have hlast : b.data.getLast? = some '/' := by
      rw [List.getLast?_eq_getElem?]
      rw [show b.data.length - 1 = i by omega]
      exact ha
    unfold endsWithSlash at hb
    rw [hlast] at hb
    simp at hb

/-- Combine the two boolean facts into `pathOk`. -/
lemma pathOk_of (b p : String) (hb : endsWithSlash b = false)
    (hp : startsWithSingleSlash p = true) : pathOk b p :=
  ⟨hp, junctionClean_of b p hb hp⟩

/-- Claim C7 (confirmed): the effective base URL stored at construction is
the input with all trailing slashes removed (concretely,
"https://x.io/api/" becomes "https://x.io/api") and never ends in a slash;
every dispatched request URL is that stored base concatenated with the
endpoint path; and each of the twelve endpoint paths starts with exactly
one slash, so no double slash arises at the junction. -/
theorem C7_theorem (apiKey base : String) (t : Int) (method endpoint : String)
    (b : Option Json) (batchID listID : Int) (format filter : String) :
    (NewClientWithConfig apiKey base t).baseURL = trimTrailingSlashes base ∧
    endsWithSlash (NewClientWithConfig apiKey base t).baseURL = false ∧
    trimTrailingSlashes "https://x.io/api/" = "https://x.io/api" ∧
    (buildRequest (NewClientWithConfig apiKey base t) method endpoint b).url
      = (NewClientWithConfig apiKey base t).baseURL ++ endpoint ∧
    pathOk (NewClientWithConfig apiKey base t).baseURL verifyPath ∧
    pathOk (NewClientWithConfig apiKey base t).baseURL verifyBatchPath ∧
    pathOk (NewClientWithConfig apiKey base t).baseURL verifyBatchUploadPath ∧
    pathOk (NewClientWithConfig apiKey base t).baseURL
      (batchStatusPath batchID) ∧
    pathOk (NewClientWithConfig apiKey base t).baseURL
      (batchResultsPath batchID format filter) ∧
    pathOk (NewClientWithConfig apiKey base t).baseURL finderEmailPath ∧
    pathOk (NewClientWithConfig apiKey base t).baseURL finderDomainPath ∧
    pathOk (NewClientWithConfig apiKey base t).baseURL finderCompanyPath ∧
    pathOk (NewClientWithConfig apiKey base t).baseURL creditsPath ∧
    pathOk (NewClientWithConfig apiKey base t).baseURL usagePath ∧
    pathOk (NewClientWithConfig apiKey base t).baseURL listsPath ∧
    pathOk (NewClientWithConfig apiKey base t).baseURL
      (deleteListPath listID) := by
  have hb : endsWithSlash (NewClientWithConfig apiKey base t).baseURL
      = false := trim_endsWithSlash_false base
  exact ⟨rfl, hb, rfl, rfl,
    pathOk_of _ _ hb rfl, pathOk_of _ _ hb rfl, pathOk_of _ _ hb rfl,
    pathOk_of _ _ hb rfl, pathOk_of _ _ hb rfl, pathOk_of _ _ hb rfl,
    pathOk_of _ _ hb rfl, pathOk_of _ _ hb rfl, pathOk_of _ _ hb rfl,
    pathOk_of _ _ hb rfl, pathOk_of _ _ hb rfl, pathOk_of _ _ hb rfl⟩

end EmailListChecker
